import Mathlib

/-!
Verification development for the `rows_and_columns` CSV analysis core
(`src/csv_processor_module.rs`).

The file system is modelled shallowly: a CSV file is the list of its
physical lines (as `BufRead::lines` yields them, without terminators), and
the sidecar metadata file is an abstract `Option String` (its content when
it exists). Machine integers (`usize`) are `Nat`; `i64` parsing carries the
explicit signed 64-bit range check. `f64` parsing is modelled by the
syntactic grammar accepted by Rust's `f64::from_str` (only `is_ok()` is
ever consulted by the code, so no floating-point arithmetic is needed).
Rust's `str::trim` / `str::to_lowercase` are modelled with ASCII
whitespace / ASCII case folding, which agree with Rust on every token the
code compares against.
-/

namespace RowsAndColumns

/-- Error type of the repository. Modelled from the spec: the
error-classification collaborator (`error_types_module.rs`) is not among the
sources; §7 of the spec describes a file-system error wrapping a cause, a
processing error that may carry a line number and an optional column index,
a metadata error, and a configuration error. -/
inductive RowsAndColumnsError where
  | FileSystemError (message : String)
  | CsvProcessingError (message : String) (line_number : Option Nat)
      (column_index : Option Nat)
  | MetadataError (message : String)
  | ConfigurationError (message : String)
deriving DecidableEq

/-- Modelled from the spec: constructor supplied by the missing
`error_types_module`; builds a processing error carrying the message, an
optional line number and an optional column index. -/
def create_csv_processing_error (message : String) (line_number : Option Nat)
    (column_index : Option Nat) : RowsAndColumnsError :=
  RowsAndColumnsError.CsvProcessingError message line_number column_index

instance {ε α : Type} [DecidableEq ε] [DecidableEq α] :
    DecidableEq (Except ε α) := fun x y =>
  match x, y with
  | Except.ok a, Except.ok b =>
    if h : a = b then isTrue (by rw [h])
    else isFalse (by intro hh; cases hh; exact h rfl)
  | Except.error a, Except.error b =>
    if h : a = b then isTrue (by rw [h])
    else isFalse (by intro hh; cases hh; exact h rfl)
  | Except.ok _, Except.error _ => isFalse (by intro hh; cases hh)
  | Except.error _, Except.ok _ => isFalse (by intro hh; cases hh)

/-- `const CSV_SAMPLE_ROWS_FOR_TYPE_DETECTION: usize = 10;` -/
def CSV_SAMPLE_ROWS_FOR_TYPE_DETECTION : Nat := 10

/-- `enum CsvColumnDataType` : the four detectable column data types. -/
inductive CsvColumnDataType where
  | Boolean
  | Integer
  | Float
  | String
deriving DecidableEq

/-- `CsvColumnDataType::to_toml_string` : canonical lowercase tag. -/
def to_toml_string : CsvColumnDataType → String
  | CsvColumnDataType.Boolean => "boolean"
  | CsvColumnDataType.Integer => "integer"
  | CsvColumnDataType.Float   => "float"
  | CsvColumnDataType.String  => "string"

/-- Model of Rust `str::to_lowercase` (ASCII case folding; every token the
program compares a lowercased value against is ASCII). -/
def rust_to_lowercase (s : String) : String :=
  String.mk (s.data.map Char.toLower)

/-- Model of Rust `str::trim`: drop whitespace from both ends. -/
def rust_trim (s : String) : String :=
  String.mk
    (((s.data.dropWhile Char.isWhitespace).reverse.dropWhile
        Char.isWhitespace).reverse)

/-- `CsvColumnDataType::from_toml_string` : reverse lookup on the
lowercased text, accepting the documented synonyms; unrecognized text
yields `none`. -/
def from_toml_string (toml_string : String) : Option CsvColumnDataType :=
  let t := rust_to_lowercase toml_string
  if t = "boolean" ∨ t = "bool" then some CsvColumnDataType.Boolean
  else if t = "integer" ∨ t = "int" then some CsvColumnDataType.Integer
  else if t = "float" ∨ t = "decimal" ∨ t = "number" then
    some CsvColumnDataType.Float
  else if t = "string" ∨ t = "text" ∨ t = "str" then
    some CsvColumnDataType.String
  else none

/-- Digits of a decimal numeral, most significant first, as a `Nat`. -/
def digitsToNat (ds : List Char) : Nat :=
  ds.foldl (fun acc d => acc * 10 + (d.toNat - 48)) 0

/-- Strip one optional leading sign, as Rust integer/float parsing does. -/
def stripSign (cs : List Char) : List Char :=
  match cs with
  | '+' :: rest => rest
  | '-' :: rest => rest
  | _ => cs

/-- Whether the string is negative after Rust sign handling. -/
def hasMinusSign (cs : List Char) : Bool :=
  match cs with
  | '-' :: _ => true
  | _ => false

/-- Model of Rust `s.parse::<i64>().is_ok()`: optional sign, one or more
ASCII digits, value within the signed 64-bit range. -/
def i64_parse_ok (s : String) : Bool :=
  let cs := s.data
  let ds := stripSign cs
  let v : Int := (if hasMinusSign cs then -1 else 1) * (digitsToNat ds : Int)
  !ds.isEmpty && ds.all Char.isDigit &&
    decide (-(2 ^ 63) ≤ v ∧ v ≤ 2 ^ 63 - 1)

/-- Exponent-and-end part of Rust's float grammar: either nothing remains,
or `e`/`E`, an optional sign, and one or more digits ending the string. -/
def f64_exp_ok (cs : List Char) : Bool :=
  match cs with
  | [] => true
  | c :: rest =>
    (c = 'e' || c = 'E') &&
      (let t := stripSign rest
       !t.isEmpty && t.all Char.isDigit)

/-- Model of Rust `s.parse::<f64>().is_ok()`: the grammar accepted by
`f64::from_str` — optional sign, then `inf`/`infinity`/`nan`
(case-insensitive) or a mantissa with at least one digit (`d+`, `d+.d*` or
`d*.d+`) followed by an optional exponent. Every string matching the
grammar parses successfully (overflow rounds to infinity, still `Ok`). -/
def f64_parse_ok (s : String) : Bool :=
  let body := stripSign s.data
  let low := body.map Char.toLower
  if low = "inf".data ∨ low = "infinity".data ∨ low = "nan".data then true
  else
    let d1 := body.takeWhile Char.isDigit
    let r1 := body.dropWhile Char.isDigit
    match r1 with
    | '.' :: r2 =>
      let d2 := r2.takeWhile Char.isDigit
      let r3 := r2.dropWhile Char.isDigit
      (!d1.isEmpty || !d2.isEmpty) && f64_exp_ok r3
    | _ => !d1.isEmpty && f64_exp_ok r1

/-- Splitting a character list on `','` (Rust `str::split(',')`): the
number of pieces is always the number of commas plus one, and the empty
string yields one empty piece. -/
def splitCommaChars : List Char → List (List Char)
  | [] => [[]]
  | c :: rest =>
    if c = ',' then [] :: splitCommaChars rest
    else
      match splitCommaChars rest with
      | [] => [[c]]
      | f :: fs => (c :: f) :: fs

/-- Rust `csv_line.split(',')` collected into strings. -/
def split_on_comma (csv_line : String) : List String :=
  (splitCommaChars csv_line.data).map String.mk

/-- `count_csv_columns_in_line` : `csv_line.split(',').count()`. -/
def count_csv_columns_in_line (csv_line : String) : Nat :=
  (split_on_comma csv_line).length

/-- `parse_csv_line_into_fields` : simple comma split into field values. -/
def parse_csv_line_into_fields (csv_line : String) : List String :=
  split_on_comma csv_line

/-- `count_numeric_fields` : fields whose trimmed text parses as `i64` or
as `f64`. -/
def count_numeric_fields (fields : List String) : Nat :=
  (fields.filter (fun field =>
    let trimmed_field := rust_trim field
    i64_parse_ok trimmed_field || f64_parse_ok trimmed_field)).length

/-- `detect_csv_header_row` : consumes the next line of the iterator (the
file's line 2) when present and compares numeric-field counts; a lone line
is data, not a header. Returns the flag together with the rest of the line
iterator. The `expected_column_count` argument only feeds a printed
warning in the source and does not affect the result. -/
def detect_csv_header_row (remaining_lines : List String)
    (expected_column_count : Nat) (first_line : String) :
    Bool × List String :=
  match remaining_lines with
  | [] => (false, [])
  | second_line :: rest =>
    let first_fields := split_on_comma first_line
    let second_fields := split_on_comma second_line
    let first_line_numeric_fields := count_numeric_fields first_fields
    let second_line_numeric_fields := count_numeric_fields second_fields
    let likely_header :=
      decide (first_line_numeric_fields < second_line_numeric_fields)
    (likely_header, rest)

/-- `count_remaining_csv_lines` : length of the rest of the iterator. -/
def count_remaining_csv_lines (lines_iterator : List String) : Nat :=
  lines_iterator.length

/-- `analyze_csv_basic_structure` : first pass. Fails on an empty file;
otherwise takes the column count from line 1, detects the header against
line 2, and counts the remaining lines, returning
`(has_header, column_count, data_row_count)`. -/
def analyze_csv_basic_structure (file_lines : List String) :
    Except RowsAndColumnsError (Bool × Nat × Nat) :=
  match file_lines with
  | [] =>
    Except.error
      (create_csv_processing_error "CSV file appears to be empty"
        (some 1) none)
  | first_line :: csv_lines =>
    let column_count := count_csv_columns_in_line first_line
    let hd := detect_csv_header_row csv_lines column_count first_line
    let has_header_row := hd.1
    let total_rows := count_remaining_csv_lines hd.2
    let data_row_count :=
      if has_header_row then total_rows else total_rows + 1
    Except.ok (has_header_row, column_count, data_row_count)

/-- `is_boolean_value` : literal boolean tokens (input already trimmed and
lowercased by the caller). -/
def is_boolean_value (value : String) : Bool :=
  value = "true" || value = "false" || value = "yes" || value = "no" ||
  value = "1" || value = "0" || value = "t" || value = "f" ||
  value = "y" || value = "n"

/-- Loop body of `detect_column_data_type`: the running
`(boolean_count, integer_count, float_count)` triple is advanced by one
sample value, which votes for at most one type — boolean token first, else
`i64` parse, else `f64` parse, else nothing. -/
def voteStep (acc : Nat × Nat × Nat) (sample_value : String) :
    Nat × Nat × Nat :=
  let trimmed_value := rust_to_lowercase (rust_trim sample_value)
  if is_boolean_value trimmed_value then
    (acc.1 + 1, acc.2.1, acc.2.2)
  else if i64_parse_ok trimmed_value then
    (acc.1, acc.2.1 + 1, acc.2.2)
  else if f64_parse_ok trimmed_value then
    (acc.1, acc.2.1, acc.2.2 + 1)
  else acc

/-- `detect_column_data_type` : empty sample list is `String`; otherwise
each value votes for at most one of boolean / integer / float (in that
per-value order), and the first of Boolean, Integer, Float whose count
reaches `(total_samples * 7) / 10` wins, with `String` as fallback. -/
def detect_column_data_type (sample_values : List String) :
    CsvColumnDataType :=
  if sample_values.isEmpty then CsvColumnDataType.String
  else
    let counts := sample_values.foldl voteStep (0, 0, 0)
    let total_samples := sample_values.length
    let threshold := total_samples * 7 / 10
    if counts.1 ≥ threshold then CsvColumnDataType.Boolean
    else if counts.2.1 ≥ threshold then CsvColumnDataType.Integer
    else if counts.2.2 ≥ threshold then CsvColumnDataType.Float
    else CsvColumnDataType.String

/-- `struct CsvColumnInformation` : per-column analysis record. -/
structure CsvColumnInformation where
  column_index : Nat
  column_name : String
  detected_data_type : CsvColumnDataType
  non_empty_value_count : Nat
  empty_value_count : Nat
  sample_values : List String
deriving DecidableEq

/-- Per-column accumulator of the sampling loop (the three parallel
vectors `column_sample_values`, `column_non_empty_counts`,
`column_empty_counts` of the source, fused per index). -/
structure ColumnAccum where
  sample_values : List String
  non_empty : Nat
  empty : Nat
deriving DecidableEq

/-- One field of one sampled row: trim, then count empty/non-empty and
append to the bounded sample list (`len < 5`). -/
def processField (st : ColumnAccum) (field_value : String) : ColumnAccum :=
  let trimmed_value := rust_trim field_value
  if trimmed_value = "" then { st with empty := st.empty + 1 }
  else
    { st with
      non_empty := st.non_empty + 1,
      sample_values :=
        if st.sample_values.length < 5 then
          st.sample_values ++ [trimmed_value]
        else st.sample_values }

/-- One sampled row: fields are consumed positionally; fields beyond
`column_count` (state exhausted) are skipped, and columns with no
corresponding field are left untouched. -/
def processRow : List ColumnAccum → List String → List ColumnAccum
  | [], _ => []
  | state, [] => state
  | st :: srest, f :: frest => processField st f :: processRow srest frest

/-- The sampling loop over data lines: stops as soon as
`rows_processed >= CSV_SAMPLE_ROWS_FOR_TYPE_DETECTION`. -/
def sampleRowsLoop : List String → Nat → List ColumnAccum →
    List ColumnAccum
  | [], _, state => state
  | line :: rest, rows_processed, state =>
    if rows_processed ≥ CSV_SAMPLE_ROWS_FOR_TYPE_DETECTION then state
    else
      sampleRowsLoop rest (rows_processed + 1)
        (processRow state (parse_csv_line_into_fields line))

/-- Generated placeholder column names `column_1 .. column_N`. -/
def generated_column_names (column_count : Nat) : List String :=
  (List.range column_count).map
    (fun index => "column_" ++ toString (index + 1))

/-- Final assembly of `CsvColumnInformation` for indices
`0..column_count`, falling back to a generated name when the header is
short. -/
def assemble_column_info (column_names : List String)
    (state : List ColumnAccum) : List CsvColumnInformation :=
  state.enum.map (fun p =>
    { column_index := p.1,
      column_name :=
        (column_names.get? p.1).getD ("column_" ++ toString (p.1 + 1)),
      detected_data_type := detect_column_data_type p.2.sample_values,
      non_empty_value_count := p.2.non_empty,
      empty_value_count := p.2.empty,
      sample_values := p.2.sample_values })

/-- `analyze_csv_column_types_and_content` : second pass. Reads the header
line for names when `has_header_row` (failing if the file is empty),
samples at most `CSV_SAMPLE_ROWS_FOR_TYPE_DETECTION` data rows, and
assembles one `CsvColumnInformation` per column index. -/
def analyze_csv_column_types_and_content (file_lines : List String)
    (has_header_row : Bool) (column_count : Nat) :
    Except RowsAndColumnsError (List CsvColumnInformation) :=
  let init : List ColumnAccum :=
    List.replicate column_count { sample_values := [], non_empty := 0, empty := 0 }
  match has_header_row, file_lines with
  | true, [] =>
    Except.error
      (create_csv_processing_error
        "CSV file appears empty when trying to read header" (some 1) none)
  | true, header_line :: data_lines =>
    let column_names := parse_csv_line_into_fields header_line
    Except.ok
      (assemble_column_info column_names (sampleRowsLoop data_lines 0 init))
  | false, data_lines =>
    let column_names := generated_column_names column_count
    Except.ok
      (assemble_column_info column_names (sampleRowsLoop data_lines 0 init))

/-- `struct CsvAnalysisResults` : the aggregate returned to the caller.
The source-path and metadata-path fields of the Rust struct are filesystem
paths supplied by collaborators outside this module's logic and are not
modelled; the metadata file itself is modelled as abstract state below. -/
structure CsvAnalysisResults where
  has_header_row : Bool
  total_column_count : Nat
  total_data_row_count : Nat
  column_information_list : List CsvColumnInformation
  metadata_file_already_existed : Bool
deriving DecidableEq

/-- The serialized metadata record built by
`create_or_update_metadata_file` (pure string construction part). -/
def metadata_toml_content
    (column_information_list : List CsvColumnInformation) : String :=
  let header :=
    "# CSV Metadata File\n# Generated by rows_and_columns\n\n" ++
    "total_columns = " ++ toString column_information_list.length ++ "\n\n"
  column_information_list.foldl
    (fun acc column_info =>
      acc ++ "[column_" ++ toString (column_info.column_index + 1) ++ "]\n" ++
      "name = \"" ++ column_info.column_name ++ "\"\n" ++
      "data_type = \"" ++ to_toml_string column_info.detected_data_type ++
      "\"\n" ++
      "column_index = " ++ toString column_info.column_index ++ "\n" ++
      "non_empty_values = " ++ toString column_info.non_empty_value_count ++
      "\n" ++
      "empty_values = " ++ toString column_info.empty_value_count ++ "\n\n")
    header

/-- Abstract state of the sidecar metadata file at its deterministic
derived path: `none` when absent, `some content` when present. -/
structure FileSystemState where
  metadata_file : Option String
deriving DecidableEq

/-- `analyze_csv_file_structure_and_types` : the orchestrator. Runs the
structural pass, then the sampling pass, reads the pre-existence flag of
the metadata file, and overwrites the metadata file with the freshly
serialized record. Any failure short-circuits and leaves the file-system
state untouched. Returns the outcome together with the resulting
file-system state. -/
def analyze_csv_file_structure_and_types (file_lines : List String)
    (fs : FileSystemState) :
    Except RowsAndColumnsError CsvAnalysisResults × FileSystemState :=
  match analyze_csv_basic_structure file_lines with
  | Except.error e => (Except.error e, fs)
  | Except.ok (has_header_row, column_count, data_row_count) =>
    match analyze_csv_column_types_and_content file_lines has_header_row
        column_count with
    | Except.error e => (Except.error e, fs)
    | Except.ok column_information_list =>
      let metadata_file_already_existed := fs.metadata_file.isSome
      let content := metadata_toml_content column_information_list
      (Except.ok
        { has_header_row := has_header_row,
          total_column_count := column_count,
          total_data_row_count := data_row_count,
          column_information_list := column_information_list,
          metadata_file_already_existed := metadata_file_already_existed },
       { metadata_file := some content })

/-- Spec-side vote of one sample value for Boolean: the trimmed,
lowercased text is one of the literal boolean tokens. -/
def votes_boolean (v : String) : Bool :=
  is_boolean_value (rust_to_lowercase (rust_trim v))

/-- Spec-side vote of one sample value for Integer: not a boolean token,
and parses as a 64-bit signed integer. -/
def votes_integer (v : String) : Bool :=
  !votes_boolean v && i64_parse_ok (rust_to_lowercase (rust_trim v))

/-- Spec-side vote of one sample value for Float: neither a boolean token
nor a 64-bit integer, and parses as a 64-bit float. -/
def votes_float (v : String) : Bool :=
  !votes_boolean v && !i64_parse_ok (rust_to_lowercase (rust_trim v)) &&
    f64_parse_ok (rust_to_lowercase (rust_trim v))

/-- Classifier written from the spec's words (claim C4), to be compared
with `detect_column_data_type`: an empty sample list yields String;
otherwise, with each value voting for at most one type, the result is the
first of Boolean, Integer, Float whose vote count is at least
`(sample_count * 7) / 10`, and String if none reaches the threshold. -/
def spec_column_type_classification (samples : List String) :
    CsvColumnDataType :=
  if samples.isEmpty then CsvColumnDataType.String
  else
    let threshold := samples.length * 7 / 10
    if samples.countP votes_boolean ≥ threshold then
      CsvColumnDataType.Boolean
    else if samples.countP votes_integer ≥ threshold then
      CsvColumnDataType.Integer
    else if samples.countP votes_float ≥ threshold then
      CsvColumnDataType.Float
    else CsvColumnDataType.String

/-- The vote fold computes exactly the three per-type vote counts, shifted
by the initial accumulator. -/
theorem foldl_voteStep_eq (samples : List String) :
    ∀ a b c : Nat,
      samples.foldl voteStep (a, b, c) =
        (a + samples.countP votes_boolean,
         b + samples.countP votes_integer,
         c + samples.countP votes_float) := by
  induction samples with
  | nil => intro a b c; simp
  | cons v t ih =>
    intro a b c
    by_cases hb : is_boolean_value (rust_to_lowercase (rust_trim v))
    · simp [voteStep, hb, ih, List.countP_cons, votes_boolean,
        votes_integer, votes_float]
      omega
    · by_cases hi : i64_parse_ok (rust_to_lowercase (rust_trim v))
      · simp [voteStep, hb, hi, ih, List.countP_cons, votes_boolean,
          votes_integer, votes_float]
        omega
      · by_cases hf : f64_parse_ok (rust_to_lowercase (rust_trim v))
        · simp [voteStep, hb, hi, hf, ih, List.countP_cons, votes_boolean,
            votes_integer, votes_float]
          omega
        · simp [voteStep, hb, hi, hf, ih, List.countP_cons, votes_boolean,
            votes_integer, votes_float]

/-- C4: the implemented column classifier agrees with the classifier read
off the spec: empty sample list gives String, and otherwise the first of
Boolean, Integer, Float whose per-value vote count (boolean token first,
else 64-bit integer parse, else 64-bit float parse) reaches
`(sample_count * 7) / 10` wins, with String as the fallback. -/
theorem detect_column_data_type_refines_spec (sample_values : List String) :
    detect_column_data_type sample_values =
      spec_column_type_classification sample_values := by
  cases sample_values with
  | nil => rfl
  | cons v t =>
    simp only [detect_column_data_type, spec_column_type_classification,
      List.isEmpty_cons, foldl_voteStep_eq, Nat.zero_add]

/-- C5: the sample list of the decimal numerals 1 through 10 is classified
Integer (10 samples, threshold 7, nine integer votes since the token `1`
votes boolean, still at least 7). -/
theorem classify_one_to_ten_integer :
    detect_column_data_type
        ["1", "2", "3", "4", "5", "6", "7", "8", "9", "10"] =
      CsvColumnDataType.Integer := by
  decide

/-- C10: any single-value sample list is classified Boolean, whatever the
value is, because the threshold `(1 * 7) / 10` is 0 and the boolean count
is checked first. -/
theorem singleton_sample_classified_boolean (s : String) :
    detect_column_data_type [s] = CsvColumnDataType.Boolean := by
  simp only [detect_column_data_type, List.isEmpty_cons, Bool.false_eq_true,
    if_false, List.length_singleton]
  norm_num

/-- Splitting on commas never yields an empty list of pieces. -/
theorem splitCommaChars_ne_nil (cs : List Char) : splitCommaChars cs ≠ [] := by
  cases cs with
  | nil => simp [splitCommaChars]
  | cons c rest =>
    simp only [splitCommaChars]
    split
    · simp
    · cases h : splitCommaChars rest with
      | nil => simp
      | cons f fs => simp

/-- The number of comma-separated pieces is the number of commas plus
one. -/
theorem splitCommaChars_length (cs : List Char) :
    (splitCommaChars cs).length = cs.count ',' + 1 := by
  induction cs with
  | nil => rfl
  | cons c rest ih =>
    simp only [splitCommaChars]
    by_cases hc : c = ','
    · simp [hc, List.count_cons, ih]
    · cases h : splitCommaChars rest with
      | nil => exact absurd h (splitCommaChars_ne_nil rest)
      | cons f fs =>
        rw [h] at ih
        simp [hc, List.count_cons, ← ih]

/-- C9: for every non-empty file, the structural analysis returns a
column count equal to the number of literal commas in the first physical
line plus one (naive split, no quoting awareness). -/
theorem column_count_eq_commas_plus_one (first_line : String)
    (rest : List String) :
    (analyze_csv_basic_structure (first_line :: rest)).map
        (fun r => r.2.1) =
      Except.ok (first_line.data.count ',' + 1) := by
  simp [analyze_csv_basic_structure, count_csv_columns_in_line,
    split_on_comma, Except.map, splitCommaChars_length]

/-- C3: for a file with at least two lines the header flag is exactly the
comparison of the number of numeric-looking fields of line 1 against
line 2, and a single-line file never has a header. -/
theorem has_header_iff_numeric_count_lt :
    (∀ (line1 line2 : String) (rest : List String),
      (analyze_csv_basic_structure (line1 :: line2 :: rest)).map
          (fun r => r.1) =
        Except.ok
          (decide (count_numeric_fields (split_on_comma line1) <
            count_numeric_fields (split_on_comma line2)))) ∧
    (∀ line : String,
      (analyze_csv_basic_structure [line]).map (fun r => r.1) =
        Except.ok false) := by
  constructor
  · intro line1 line2 rest
    simp [analyze_csv_basic_structure, detect_csv_header_row, Except.map]
  · intro line
    simp [analyze_csv_basic_structure, detect_csv_header_row, Except.map]

/-- C7: a file with zero lines makes the whole analysis fail with a
processing error whose message says the file is empty, carrying line
number 1 and no column context, and the metadata file state is returned
unchanged — nothing is created or modified. -/
theorem empty_file_fails_without_write (fs : FileSystemState) :
    analyze_csv_file_structure_and_types [] fs =
      (Except.error
        (RowsAndColumnsError.CsvProcessingError "CSV file appears to be empty"
          (some 1) none),
       fs) := rfl

/-- C1 evaluation: on the two-line, no-header file
`["a,b", "c,d"]` the number of remaining lines after line 2 is 0, and the
structural analysis returns `data_row_count = 1`, not the
`remaining + 2 = 2` the claim states (line 2 is consumed by header
detection and never counted). -/
theorem data_row_count_off_by_one :
    analyze_csv_basic_structure ["a,b", "c,d"] =
        Except.ok (false, 2, 1) ∧
      analyze_csv_basic_structure ["a,b", "c,d"] ≠
        Except.ok (false, 2, 0 + 2) := by
  constructor
  · rfl
  · decide

/-- C2 evaluation: on the same file `["a,b", "c,d"]` the sampler counts
both physical lines for every column (`non_empty + empty = 2`), while the
reported `data_row_count` is 1, so the claimed bound
`non_empty + empty <= min 10 data_row_count` evaluates to false. -/
theorem sample_counts_exceed_reported_rows :
    ((analyze_csv_file_structure_and_types ["a,b", "c,d"]
          { metadata_file := none }).1).map
        (fun r =>
          (r.column_information_list.map
            (fun c => c.non_empty_value_count + c.empty_value_count)).all
            (fun n => decide (n ≤ min 10 r.total_data_row_count))) =
      Except.ok false := by
  decide

/-- C6: the four canonical tags round-trip through the reverse lookup; the
documented synonyms map to their variants; the lookup is case-insensitive
(it depends only on the lowercased text); and it yields no match exactly
when the lowercased text is none of the ten accepted strings. -/
theorem toml_tag_round_trip :
    (∀ t : CsvColumnDataType, from_toml_string (to_toml_string t) = some t) ∧
    (from_toml_string "bool" = some CsvColumnDataType.Boolean ∧
     from_toml_string "int" = some CsvColumnDataType.Integer ∧
     from_toml_string "decimal" = some CsvColumnDataType.Float ∧
     from_toml_string "number" = some CsvColumnDataType.Float ∧
     from_toml_string "text" = some CsvColumnDataType.String ∧
     from_toml_string "str" = some CsvColumnDataType.String) ∧
    (∀ s t : String, rust_to_lowercase s = rust_to_lowercase t →
      from_toml_string s = from_toml_string t) ∧
    (∀ s : String, from_toml_string s = none ↔
      rust_to_lowercase s ∉
        (["boolean", "bool", "integer", "int", "float", "decimal",
          "number", "string", "text", "str"] : List String)) := by
  refine ⟨?_, ?_, ?_, ?_⟩
  · intro t; cases t <;> decide
  · exact ⟨by decide, by decide, by decide, by decide, by decide, by decide⟩
  · intro s t h
    simp only [from_toml_string, h]
  · intro s
    simp only [from_toml_string, List.mem_cons, List.mem_singleton,
      List.not_mem_nil]
    split_ifs <;> simp_all <;> tauto

/-- Closed instance of the case-insensitivity part of the round-trip
theorem: two spellings of `bool` that agree after lowercasing resolve to
the same variant. -/
theorem toml_tag_round_trip_witness :
    from_toml_string "BOOL" = from_toml_string "Bool" :=
  toml_tag_round_trip.2.2.1 "BOOL" "Bool" (by decide)

/-- A pair drawn from an enumerated list has its second component in the
list. -/
theorem snd_mem_of_mem_enum {α : Type} {l : List α} {p : Nat × α}
    (h : p ∈ l.enum) : p.2 ∈ l :=
  List.getElem?_mem (List.mem_enum_iff_getElem?.1 h)

/-- Processing one field never pushes a sample list past five entries. -/
theorem processField_sample_le (st : ColumnAccum) (f : String)
    (h : st.sample_values.length ≤ 5) :
    (processField st f).sample_values.length ≤ 5 := by
  unfold processField
  by_cases h1 : rust_trim f = ""
  · simpa [h1] using h
  · by_cases h2 : st.sample_values.length < 5
    · simp [h1, h2]
      omega
    · simpa [h1, h2] using h

/-- Processing one row preserves the five-entry sample bound in every
column. -/
theorem processRow_sample_le (state : List ColumnAccum) :
    ∀ (fields : List String),
      (∀ st ∈ state, st.sample_values.length ≤ 5) →
      ∀ st ∈ processRow state fields, st.sample_values.length ≤ 5 := by
  induction state with
  | nil => intro fields h st hst; simp [processRow] at hst
  | cons s srest ih =>
    intro fields h st hst
    cases fields with
    | nil => exact h st hst
    | cons f frest =>
      simp only [processRow, List.mem_cons] at hst
      rcases hst with rfl | hst
      · exact processField_sample_le _ _ (h s (by simp))
      · exact ih frest (fun y hy => h y (by simp [hy])) st hst

/-- The sampling loop preserves the five-entry sample bound. -/
theorem sampleRowsLoop_sample_le (lines : List String) :
    ∀ (k : Nat) (state : List ColumnAccum),
      (∀ st ∈ state, st.sample_values.length ≤ 5) →
      ∀ st ∈ sampleRowsLoop lines k state, st.sample_values.length ≤ 5 := by
  induction lines with
  | nil => intro k state h st hst; exact h st hst
  | cons line rest ih =>
    intro k state h st hst
    simp only [sampleRowsLoop] at hst
    by_cases hk : k ≥ CSV_SAMPLE_ROWS_FOR_TYPE_DETECTION
    · rw [if_pos hk] at hst; exact h st hst
    · rw [if_neg hk] at hst
      exact ih (k + 1) _ (processRow_sample_le state _ h) st hst

/-- Every assembled column record, over any state reachable from the
all-empty initial accumulators, has at most five sample values. -/
theorem assembled_sample_le (column_names : List String)
    (data_lines : List String) (column_count : Nat) :
    ∀ c ∈ assemble_column_info column_names
        (sampleRowsLoop data_lines 0
          (List.replicate column_count
            { sample_values := [], non_empty := 0, empty := 0 })),
      c.sample_values.length ≤ 5 := by
  intro c hc
  simp only [assemble_column_info, List.mem_map] at hc
  obtain ⟨p, hp, rfl⟩ := hc
  show p.2.sample_values.length ≤ 5
  refine sampleRowsLoop_sample_le data_lines 0 _ ?_ p.2
    (snd_mem_of_mem_enum hp)
  intro y hy
  have hy0 := List.eq_of_mem_replicate hy
  simp [hy0]

/-- After ten rows the loop ignores the rest of the file: its result on
any line list equals its result on the first `10 - k` lines. -/
theorem sampleRowsLoop_take (lines : List String) :
    ∀ (k : Nat) (state : List ColumnAccum),
      sampleRowsLoop lines k state =
        sampleRowsLoop
          (lines.take (CSV_SAMPLE_ROWS_FOR_TYPE_DETECTION - k)) k state := by
  induction lines with
  | nil => intro k state; simp [sampleRowsLoop]
  | cons line rest ih =>
    intro k state
    by_cases hk : k ≥ CSV_SAMPLE_ROWS_FOR_TYPE_DETECTION
    · have h0 : CSV_SAMPLE_ROWS_FOR_TYPE_DETECTION - k = 0 := by omega
      simp [sampleRowsLoop, hk, h0]
    · have h1 : CSV_SAMPLE_ROWS_FOR_TYPE_DETECTION - k =
          (CSV_SAMPLE_ROWS_FOR_TYPE_DETECTION - (k + 1)) + 1 := by
        omega
      rw [h1, List.take_succ_cons]
      simp only [sampleRowsLoop, if_neg hk]
      exact ih (k + 1) _

/-- C8: every column record returned by the type-and-content pass carries
at most five sample values, and the pass inspects at most
`CSV_SAMPLE_ROWS_FOR_TYPE_DETECTION` (10) data rows: its result is
unchanged when the file is truncated to the sample window (plus the header
line when one is consumed). -/
theorem sample_cap_and_bounded_window :
    (∀ (file_lines : List String) (has_header_row : Bool)
        (column_count : Nat) (cols : List CsvColumnInformation),
      analyze_csv_column_types_and_content file_lines has_header_row
          column_count = Except.ok cols →
      ∀ c ∈ cols, c.sample_values.length ≤ 5) ∧
    (∀ (file_lines : List String) (has_header_row : Bool)
        (column_count : Nat),
      analyze_csv_column_types_and_content file_lines has_header_row
          column_count =
        analyze_csv_column_types_and_content
          (file_lines.take
            (CSV_SAMPLE_ROWS_FOR_TYPE_DETECTION +
              if has_header_row then 1 else 0))
          has_header_row column_count) := by
  constructor
  · intro file_lines has_header_row column_count cols hok
    cases has_header_row with
    | true =>
      cases file_lines with
      | nil => simp [analyze_csv_column_types_and_content] at hok
      | cons header_line data_lines =>
        simp only [analyze_csv_column_types_and_content, Except.ok.injEq]
          at hok
        rw [← hok]
        exact assembled_sample_le _ data_lines column_count
    | false =>
      simp only [analyze_csv_column_types_and_content, Except.ok.injEq]
        at hok
      rw [← hok]
      exact assembled_sample_le _ file_lines column_count
  · intro file_lines has_header_row column_count
    cases has_header_row with
    | true =>
      cases file_lines with
      | nil => rfl
      | cons header_line data_lines =>
        have key := sampleRowsLoop_take data_lines 0
          (List.replicate column_count
            { sample_values := [], non_empty := 0, empty := 0 })
        rw [Nat.sub_zero] at key
        have htake : (header_line :: data_lines).take
            (CSV_SAMPLE_ROWS_FOR_TYPE_DETECTION +
              if (true : Bool) = true then 1 else 0) =
            header_line ::
              data_lines.take CSV_SAMPLE_ROWS_FOR_TYPE_DETECTION := by
          simp
        rw [htake]
        simp only [analyze_csv_column_types_and_content]
        rw [key]
    | false =>
      have key := sampleRowsLoop_take file_lines 0
        (List.replicate column_count
          { sample_values := [], non_empty := 0, empty := 0 })
      rw [Nat.sub_zero] at key
      have htake : file_lines.take
          (CSV_SAMPLE_ROWS_FOR_TYPE_DETECTION +
            if (false : Bool) = true then 1 else 0) =
          file_lines.take CSV_SAMPLE_ROWS_FOR_TYPE_DETECTION := by
        simp
      rw [htake]
      simp only [analyze_csv_column_types_and_content]
      rw [key]

/-- Closed instance of the sample-cap theorem: the single column produced
for the one-row file `a,b` with one expected column keeps its sample list
within five entries. -/
theorem sample_cap_and_bounded_window_witness :
    ({ column_index := 0, column_name := "column_1",
       detected_data_type := CsvColumnDataType.Boolean,
       non_empty_value_count := 1, empty_value_count := 0,
       sample_values := ["a"] } :
        CsvColumnInformation).sample_values.length ≤ 5 :=
  sample_cap_and_bounded_window.1 ["a,b"] false 1
    [{ column_index := 0, column_name := "column_1",
       detected_data_type := CsvColumnDataType.Boolean,
       non_empty_value_count := 1, empty_value_count := 0,
       sample_values := ["a"] }]
    (by decide)
    { column_index := 0, column_name := "column_1",
      detected_data_type := CsvColumnDataType.Boolean,
      non_empty_value_count := 1, empty_value_count := 0,
      sample_values := ["a"] }
    (by simp)

end RowsAndColumns
